import Mathlib

/-!
Verification of the roster-optimization engine (`utils/optimizer.py`,
class `RosterOptimizer`) against its natural-language specification.

The engine is shallowly embedded:

* `optimize_roster` (lines 30-272) becomes a total Lean function from an
  `OptInput` (the Python arguments plus the "today" date used by
  `datetime.now()`) and a `SolverOracle` (the status and boolean
  assignment returned by the external CP-SAT solver) to a `CallOutcome`
  (the returned pair `(roster, success)` together with the
  `self.last_error` field the call leaves behind).
* Python exceptions are modelled with `Except String`: the body
  (`optimizeBody`) either returns a normal result (`BodyResult`) or
  throws a message, and `optimize_roster` is the top-level
  `try/except` wrapper (lines 43, 269-272) that converts a thrown
  message `e` into `last_error = "Optimization error: " ++ e` and the
  returned pair `(None, False)`.
* Calendar dates are modelled as integers (day numbers): the result of
  `datetime.strptime(_, '%Y-%m-%d')` is a calendar date, and the only
  operations the code performs on dates are day-granularity
  subtraction, comparison and +1 day, all of which are integer
  operations on day numbers.  `today` is `datetime.now()` normalized to
  midnight (line 63).  Malformed date strings (where `strptime` would
  throw) are outside this embedding; like every other exception they
  would be converted by the top-level handler into the same
  `"Optimization error: ..."` failure shape.
* The `staff_preferences` argument (lines 193-203) only adds soft
  objective terms and indicator variables with no hard consequence for
  the returned assignment; no claim concerns it and it is omitted.
* A solution returned by the solver with status `OPTIMAL`(4) or
  `FEASIBLE`(2) satisfies every constraint added to the model — in
  particular the hard one-shift-per-day constraint of line 164, which
  appears as a solver hypothesis below, and the leave constraint of
  line 140, which is independently re-enforced during extraction
  (lines 236-238).  The soft constraints (lines 152-191) relate shift
  variables to slack variables the solver also assigns and impose no
  consequence needed by any claim.
-/

/-- Row of the staff DataFrame as the optimizer uses it: only the
`name` column is ever read (lines 58 and 241). -/
structure StaffRow where
  name : String
deriving Repr, DecidableEq

/-- A leave-request record (dict keys read at lines 52-55), with the two
dates already parsed to day numbers. -/
structure LeaveRequest where
  staff_member : String
  status : String
  start_date : Int
  end_date : Int
deriving Repr, DecidableEq

/-- Arguments of one `optimize_roster` call.  `staff` is `none` when the
caller passes `None` for `staff_data`; `today` is the current date (as
a day number) that `datetime.now()` yields during the call. -/
structure OptInput where
  staff : Option (List StaffRow)
  num_days : Int
  shifts_per_day : Int
  min_staff_per_shift : Int
  max_shifts_per_week : Int
  leave_requests : Option (List LeaveRequest)
  today : Int

/-- The external CP-SAT solver's response (line 220): a status code
(`OPTIMAL = 4`, `FEASIBLE = 2`, anything else is a failure, line 226)
and the boolean value assignment queried by `solver.Value` (line 240). -/
structure SolverOracle where
  status : Nat
  val : Nat → Nat → Nat → Bool

/-- One roster row (lines 245-252).  `Staff` is kept as the list of
assigned staff indices, in increasing index order exactly as the
extraction loop produces it; the DataFrame's `Staff` column is the
comma-join of these indices' names (`rosterStaffField` below) and
`Staff_Count` is `len(staff_on_shift)`. -/
structure RosterRow where
  Day : Nat
  Date : Int
  Shift : Nat
  Shift_Time : String
  Staff : List Nat
  Staff_Count : Nat
deriving Repr, DecidableEq

/-- What one call to `optimize_roster` leaves behind: the returned pair
`(roster, success)` and the `self.last_error` field (set on every
failure path, reset to `None` at line 46 and never set on success). -/
structure CallOutcome where
  roster : Option (List RosterRow)
  success : Bool
  last_error : Option String
deriving Repr, DecidableEq

/-- `_get_shift_time` (lines 274-281): a fixed lookup on the slot index
with fallback `"Unknown"`.  Note it does not receive `shifts_per_day`. -/
def _get_shift_time (shift : Nat) : String :=
  match shift with
  | 0 => "07:00-15:00"
  | 1 => "15:00-23:00"
  | 2 => "23:00-07:00"
  | _ => "Unknown"

/-- The day-offsets a single approved leave request marks (lines 60-68):
iterate `current_date` from `start_date` to `end_date` inclusive,
compute `day_num = (current_date - today).days`, and keep it when
`0 <= day_num < num_days` (note `num_days` is the raw argument; this
loop runs before the parameter validation). -/
def leaveDayNums (start_date end_date today num_days : Int) : List Nat :=
  (List.range (end_date - start_date + 1).toNat).filterMap (fun (k : Nat) =>
    let day_num : Int := start_date + (k : Int) - today
    if 0 ≤ day_num ∧ day_num < num_days then some day_num.toNat else none)

/-- The staff-index lookup at line 58,
`staff_data[staff_data['name'] == staff_name].index[0]`: the first row
whose `name` equals the request's `staff_member`.  When `staff_data` is
`None` the subscript raises `TypeError`; when no row matches, `.index[0]`
on the empty selection raises `IndexError` (pandas message kept). -/
def staffLookup (staff : Option (List StaffRow)) (staff_name : String) : Except String Nat :=
  match staff with
  | none => .error "'NoneType' object is not subscriptable"
  | some rows =>
    match rows.findIdx? (fun r => r.name == staff_name) with
    | none => .error "index 0 is out of bounds for axis 0 with size 0"
    | some i => .ok i

/-- The leave-processing loop (lines 49-68): each request with
`status == 'Approved'` has its staff index looked up and its in-horizon
day offsets recorded.  The result is the `staff_leaves` relation as a
list of (staff index, day offset) pairs; the Python dict-of-sets is
only ever queried for membership, which the list models.  The loop runs
request by request, so the first failing lookup throws. -/
def computeLeaves (staff : Option (List StaffRow)) (today num_days : Int) :
    List LeaveRequest → Except String (List (Nat × Nat))
  | [] => .ok []
  | req :: rest =>
    if req.status == "Approved" then
      match staffLookup staff req.staff_member with
      | .error e => .error e
      | .ok idx =>
        match computeLeaves staff today num_days rest with
        | .error e => .error e
        | .ok lv =>
          .ok (((leaveDayNums req.start_date req.end_date today num_days).map
                  (fun d => (idx, d))) ++ lv)
    else computeLeaves staff today num_days rest

/-- Capacity pre-check arithmetic (lines 93-94):
`total_slots_needed = (num_days * shifts_per_day) * min_staff_per_shift`. -/
def totalSlotsNeeded (num_days shifts_per_day min_staff_per_shift : Nat) : Nat :=
  num_days * shifts_per_day * min_staff_per_shift

/-- `weeks_in_period = (num_days + 6) // 7` (line 95), the ceiling of
`num_days / 7` for positive `num_days`. -/
def weeksInPeriod (num_days : Nat) : Nat := (num_days + 6) / 7

/-- `max_available_slots = num_staff * max_shifts_per_week * weeks_in_period`
(line 96). -/
def maxAvailableSlots (num_staff max_shifts_per_week num_days : Nat) : Nat :=
  num_staff * max_shifts_per_week * weeksInPeriod num_days

/-- The capacity error text (lines 104-116): reports the needed and
available slot counts, echoes the five parameters, and lists three
numbered remediation suggestions. -/
def capacityError (num_staff num_days shifts_per_day min_staff_per_shift
    max_shifts_per_week total_slots_needed max_available_slots : Nat) : String :=
  "Not enough staff capacity. Need " ++ toString total_slots_needed ++
  " slots but only have " ++ toString max_available_slots ++ " available.\n" ++
  "Current parameters:\n" ++
  "- Staff members: " ++ toString num_staff ++ "\n" ++
  "- Days: " ++ toString num_days ++ "\n" ++
  "- Shifts per day: " ++ toString shifts_per_day ++ "\n" ++
  "- Min staff per shift: " ++ toString min_staff_per_shift ++ "\n" ++
  "- Max shifts per week: " ++ toString max_shifts_per_week ++ "\n" ++
  "Suggestions:\n" ++
  "1. Increase staff members (need at least " ++
    toString (total_slots_needed / max_shifts_per_week + 1) ++ ")\n" ++
  "2. Reduce min staff per shift (currently " ++ toString min_staff_per_shift ++ ")\n" ++
  "3. Increase max shifts per week (currently " ++ toString max_shifts_per_week ++ ")"

/-- The no-solution error text (lines 263-266). -/
def infeasibleError (status : Nat) : String :=
  "Could not find a feasible solution. Status: " ++ toString status ++
  ". This might be due to conflicting constraints, insufficient staff capacity, or too many approved leaves."

/-- The inner loop of result extraction (lines 234-242): for one
`(day, shift)` slot, the staff indices (in increasing order) that are
not recorded on leave that day and whose variable evaluated to 1. -/
def assignedStaff (val : Nat → Nat → Nat → Bool) (staff_leaves : List (Nat × Nat))
    (num_staff day shift : Nat) : List Nat :=
  (List.range num_staff).filter
    (fun staff => decide ((staff, day) ∉ staff_leaves) && val staff day shift)

/-- The roster row one `(day, shift)` slot yields (lines 244-252):
`none` (no row appended) when the slot's staff list is empty, else the
row with `Day = day + 1`, `Date = today + day`, `Shift = shift + 1`,
the `_get_shift_time` label, the staff list and its length. -/
def slotRow (val : Nat → Nat → Nat → Bool) (staff_leaves : List (Nat × Nat))
    (num_staff : Nat) (today : Int) (day shift : Nat) : Option RosterRow :=
  if (assignedStaff val staff_leaves num_staff day shift).isEmpty then none
  else some ⟨day + 1, today + (day : Int) , shift + 1, _get_shift_time shift,
    assignedStaff val staff_leaves num_staff day shift,
    (assignedStaff val staff_leaves num_staff day shift).length⟩

/-- The roster rows one day contributes (lines 233-252): one row per
shift slot with a nonempty staff list; empty slots produce no row. -/
def rowsForDay (val : Nat → Nat → Nat → Bool) (staff_leaves : List (Nat × Nat))
    (num_staff shifts_per_day : Nat) (today : Int) (day : Nat) : List RosterRow :=
  (List.range shifts_per_day).filterMap (slotRow val staff_leaves num_staff today day)

/-- The full extraction loop (lines 228-252): all days in order, with
`Date = today + day` (line 232). -/
def buildRoster (val : Nat → Nat → Nat → Bool) (staff_leaves : List (Nat × Nat))
    (num_staff num_days shifts_per_day : Nat) (today : Int) : List RosterRow :=
  ((List.range num_days).map (rowsForDay val staff_leaves num_staff shifts_per_day today)).flatten

/-- A normal (non-throwing) outcome of the body of `optimize_roster`:
either the successful roster (`return roster_df, True`) or an explicit
failure (`self.last_error = err; return None, False`). -/
inductive BodyResult
  | success (roster : List RosterRow)
  | failure (err : String)
deriving Repr, DecidableEq

/-- The body of `optimize_roster` (lines 44-267), in source order:
leave processing (lines 48-68, which can throw and runs BEFORE the
input validation), the `None`/empty staff check (lines 70-73), the four
positivity checks (lines 75-87), the capacity pre-check (lines 93-117),
then the solve (line 220) and, on status `OPTIMAL`(4)/`FEASIBLE`(2),
extraction (lines 226-261) with the empty-roster anomaly check
(lines 256-258); any other status fails with `infeasibleError`
(lines 263-267). -/
def optimizeBody (inp : OptInput) (oracle : SolverOracle) : Except String BodyResult :=
  match computeLeaves inp.staff inp.today inp.num_days (inp.leave_requests.getD []) with
  | .error e => .error e
  | .ok staff_leaves =>
    match inp.staff with
    | none => .ok (.failure "No staff data provided")
    | some staffRows =>
      if staffRows.isEmpty then .ok (.failure "No staff data provided")
      else if inp.num_days ≤ 0 then .ok (.failure "Number of days must be positive")
      else if inp.shifts_per_day ≤ 0 then .ok (.failure "Shifts per day must be positive")
      else if inp.min_staff_per_shift ≤ 0 then
        .ok (.failure "Minimum staff per shift must be positive")
      else if inp.max_shifts_per_week ≤ 0 then
        .ok (.failure "Maximum shifts per week must be positive")
      else if maxAvailableSlots staffRows.length inp.max_shifts_per_week.toNat inp.num_days.toNat <
          totalSlotsNeeded inp.num_days.toNat inp.shifts_per_day.toNat inp.min_staff_per_shift.toNat then
        .ok (.failure (capacityError staffRows.length inp.num_days.toNat inp.shifts_per_day.toNat
          inp.min_staff_per_shift.toNat inp.max_shifts_per_week.toNat
          (totalSlotsNeeded inp.num_days.toNat inp.shifts_per_day.toNat inp.min_staff_per_shift.toNat)
          (maxAvailableSlots staffRows.length inp.max_shifts_per_week.toNat inp.num_days.toNat)))
      else if oracle.status == 4 || oracle.status == 2 then
        if (buildRoster oracle.val staff_leaves staffRows.length
            inp.num_days.toNat inp.shifts_per_day.toNat inp.today).isEmpty then
          .ok (.failure "No valid assignments found in the solution")
        else .ok (.success (buildRoster oracle.val staff_leaves staffRows.length
          inp.num_days.toNat inp.shifts_per_day.toNat inp.today))
      else .ok (.failure (infeasibleError oracle.status))

/-- `optimize_roster`'s public boundary: the body's explicit failures
return `(None, False)` with `last_error` set, a thrown exception `e` is
caught at the top (lines 269-272) and becomes `(None, False)` with
`last_error = "Optimization error: " ++ e`, and success returns
`(roster, True)` with `last_error` still `None` (reset at line 46). -/
def optimize_roster (inp : OptInput) (oracle : SolverOracle) : CallOutcome :=
  match optimizeBody inp oracle with
  | .error e => ⟨none, false, some ("Optimization error: " ++ e)⟩
  | .ok (.failure err) => ⟨none, false, some err⟩
  | .ok (.success roster) => ⟨some roster, true, none⟩

/-- `get_last_error` (lines 24-28): when `last_error` is falsy (`None`
or `""`) and the debug trail is nonempty, the joined debug trail;
otherwise `last_error` when truthy, else `"Unknown error occurred"`. -/
def get_last_error (last_error : Option String) (debug_info : List String) : String :=
  if last_error.getD "" = "" ∧ debug_info ≠ [] then
    "Optimization failed with the following issues:\n" ++ String.intercalate "\n" debug_info
  else if last_error.getD "" = "" then "Unknown error occurred"
  else last_error.getD ""

/-- The staff names of a roster row, in row order
(`staff_data.iloc[staff]['name']`, line 241). -/
def rosterStaffNames (staffRows : List StaffRow) (r : RosterRow) : List String :=
  r.Staff.map (fun i => (staffRows.getD i ⟨""⟩).name)

/-- The `Staff` column string of a roster row:
`', '.join(staff_on_shift)` (line 250), the comma-separated names of
the assigned staff. -/
def rosterStaffField (staffRows : List StaffRow) (r : RosterRow) : String :=
  String.intercalate ", " (rosterStaffNames staffRows r)

/-- A row of a roster DataFrame as `calculate_roster_metrics` reads it:
only the `Shift_Time`, `Staff` and `Staff_Count` columns are used.  The
metrics calculator is standalone — it accepts any such table, not only
engine output. -/
structure DfRow where
  Shift_Time : String
  Staff : String
  Staff_Count : Nat
deriving Repr, DecidableEq

/-- The view of an engine roster row as a metrics-input row. -/
def toDfRow (staffRows : List StaffRow) (r : RosterRow) : DfRow :=
  ⟨r.Shift_Time, rosterStaffField staffRows r, r.Staff_Count⟩

/-- The five-key metrics record (lines 286-301).  Numeric results are
modelled over `ℚ` (the formulas are ratios of integers). -/
structure Metrics where
  total_shifts : Nat
  avg_staff_per_shift : ℚ
  coverage : ℚ
  staff_utilization : ℚ
  preference_satisfaction : ℚ
deriving Repr, DecidableEq

/-- `_calculate_staff_utilization` (lines 313-319):
`sum(Staff_Count) / len(roster) * 100`, and 0 on an empty/absent table. -/
def _calculate_staff_utilization (rows : List DfRow) : ℚ :=
  if rows.isEmpty then 0
  else ((rows.map (fun r => r.Staff_Count)).sum : ℚ) / (rows.length : ℚ) * 100

/-- Python's `pat in s` substring test, as used at lines 338-340. -/
def strContains (s pat : String) : Bool := 2 ≤ (s.splitOn pat).length

/-- The (shift-time, staff-name) pairs `_calculate_preference_satisfaction`
iterates over (lines 330-335): each row's `Staff` string split on `','`
and stripped. -/
def prefPairs (rows : List DfRow) : List (String × String) :=
  (rows.map (fun row =>
    ((row.Staff.splitOn ",").map (fun s => s.trim)).map
      (fun nm => (row.Shift_Time, nm)))).flatten

/-- The per-assignment "preferred" test (lines 338-340): the shift-time
label's prefix paired with a substring test against the staff NAME
string (the reference's known-fragile heuristic). -/
def isPreferredPair (p : String × String) : Bool :=
  (p.1.startsWith "07:00" && strContains p.2 "Morning") ||
  (p.1.startsWith "15:00" && strContains p.2 "Evening") ||
  (p.1.startsWith "23:00" && strContains p.2 "Night")

/-- `_calculate_preference_satisfaction` (lines 321-346). -/
def _calculate_preference_satisfaction (rows : List DfRow) : ℚ :=
  if rows.isEmpty then 0
  else
    let total := (prefPairs rows).length
    let preferred := ((prefPairs rows).filter isPreferredPair).length
    if 0 < total then (preferred : ℚ) / (total : ℚ) * 100 else 0

/-- `calculate_roster_metrics` (lines 283-311): the all-zero record on a
`None` or empty table, otherwise the five formulas of lines 295-301
(`coverage` is `(Staff_Count > 0).mean() * 100`). -/
def calculate_roster_metrics (roster : Option (List DfRow)) : Metrics :=
  match roster with
  | none => ⟨0, 0, 0, 0, 0⟩
  | some rows =>
    if rows.isEmpty then ⟨0, 0, 0, 0, 0⟩
    else
      { total_shifts := rows.length
        avg_staff_per_shift := ((rows.map (fun r => r.Staff_Count)).sum : ℚ) / (rows.length : ℚ)
        coverage := ((rows.countP (fun r => decide (0 < r.Staff_Count))) : ℚ) / (rows.length : ℚ) * 100
        staff_utilization := _calculate_staff_utilization rows
        preference_satisfaction := _calculate_preference_satisfaction rows }

/-- Spec-reading of the shift-time labels as a function of the slot
index alone (the amended C8): slots 0/1/2 always carry the three fixed
time-of-day labels — whatever `shifts_per_day` is — and every later
slot is labelled "Unknown". -/
def shiftTimeSpec (s : Nat) : String :=
  if s = 0 then "07:00-15:00"
  else if s = 1 then "15:00-23:00"
  else if s = 2 then "23:00-07:00"
  else "Unknown"

/-! ### Concrete instances used by the per-claim witnesses and
counterexamples -/

/-- C1 witness instance: two staff, a two-day horizon, one shift per
day, Alice approved on leave for day 0. -/
def inpC1w : OptInput :=
  ⟨some [⟨"Alice"⟩, ⟨"Bob"⟩], 2, 1, 1, 5, some [⟨"Alice", "Approved", 0, 0⟩], 0⟩

/-- C1 witness oracle: `OPTIMAL`, every variable true (the leave
constraint is enforced during extraction as well). -/
def oC1w : SolverOracle := ⟨4, fun _ _ _ => true⟩

/-- C2 counterexample instance: `total_slots_needed = 7 > 0 =
max_available_slots`, but `max_shifts_per_week = 0` trips the earlier
positivity check instead of the capacity check. -/
def inpC2cex : OptInput := ⟨some [⟨"Asha"⟩], 7, 1, 1, 0, none, 0⟩

/-- C2 counterexample oracle (never consulted). -/
def oC2cex : SolverOracle := ⟨4, fun _ _ _ => true⟩

/-- C2 witness instance: the spec's 63 > 10 example
(2 staff, 7 days, 3 shifts, min 3 per shift, max 5 per week). -/
def inpC2w : OptInput := ⟨some [⟨"Asha"⟩, ⟨"Ben"⟩], 7, 3, 3, 5, none, 0⟩

/-- C2 witness oracle (never consulted). -/
def oC2w : SolverOracle := ⟨4, fun _ _ _ => true⟩

/-- C3 witness instance: two staff, one day, two shifts. -/
def inpC3w : OptInput := ⟨some [⟨"Asha"⟩, ⟨"Ben"⟩], 1, 2, 1, 5, none, 0⟩

/-- C3 witness oracle: staff `st` works shift `st`, satisfying the
one-shift-per-day constraint. -/
def oC3w : SolverOracle := ⟨4, fun st _ sh => st == sh⟩

/-- C4 witness instance: one staff, one day, two shifts. -/
def inpC4w : OptInput := ⟨some [⟨"Asha"⟩], 1, 2, 1, 5, none, 0⟩

/-- C4 witness oracle: the single staff works only slot 0, so slot 1 is
an empty slot producing no row. -/
def oC4w : SolverOracle := ⟨4, fun _ _ sh => sh == 0⟩

/-- C6 counterexample instance: empty staff table AND an approved leave
entry; the leave lookup runs before the empty-staff check. -/
def inpC6cex : OptInput := ⟨some [], 7, 3, 3, 5, some [⟨"Ghost", "Approved", 0, 0⟩], 0⟩

/-- C6 counterexample oracle (never consulted). -/
def oC6cex : SolverOracle := ⟨4, fun _ _ _ => true⟩

/-- C6 witness instance: empty staff table, no leave requests. -/
def inpC6w : OptInput := ⟨some [], 7, 3, 3, 5, none, 0⟩

/-- C6 witness oracle (never consulted). -/
def oC6w : SolverOracle := ⟨4, fun _ _ _ => true⟩

/-- C8 counterexample instance: `shifts_per_day = 2`, one staff, one
day. -/
def inpC8cex : OptInput := ⟨some [⟨"Asha"⟩], 1, 2, 1, 5, none, 0⟩

/-- C8 counterexample oracle: the staff works slot 0 only. -/
def oC8cex : SolverOracle := ⟨4, fun _ _ sh => sh == 0⟩

/-- C8 witness instance: two staff, one day, `shifts_per_day = 2`. -/
def inpC8w : OptInput := ⟨some [⟨"Asha"⟩, ⟨"Ben"⟩], 1, 2, 1, 5, none, 0⟩

/-- C8 witness oracle: `FEASIBLE` status, staff `st` works shift `st`. -/
def oC8w : SolverOracle := ⟨2, fun st _ sh => st == sh⟩

/-- C9 witness table: two hand-built rows. -/
def rowsC9w : List DfRow := [⟨"07:00-15:00", "Alice, Bob", 2⟩, ⟨"15:00-23:00", "Cara", 1⟩]

/-- C10 witness instance: staff table contains only Alice, while the
approved leave request names Bob. -/
def inpC10w : OptInput :=
  ⟨some [⟨"Alice"⟩], 7, 3, 1, 5, some [⟨"Bob", "Approved", 0, 1⟩], 0⟩

/-- C10 witness oracle (never consulted). -/
def oC10w : SolverOracle := ⟨4, fun _ _ _ => true⟩

/-! ## Structural lemmas about the embedding -/

/-- Membership in one slot's extracted staff list (lines 234-242). -/
theorem mem_assignedStaff {val : Nat → Nat → Nat → Bool} {staff_leaves : List (Nat × Nat)}
    {num_staff day shift st : Nat} :
    st ∈ assignedStaff val staff_leaves num_staff day shift ↔
      st < num_staff ∧ (st, day) ∉ staff_leaves ∧ val st day shift = true := by
  simp [assignedStaff, List.mem_filter, List.mem_range, and_assoc]

/-- Characterization of the rows one day contributes: each comes from a
shift slot with a nonempty staff list. -/
theorem mem_rowsForDay {val : Nat → Nat → Nat → Bool} {staff_leaves : List (Nat × Nat)}
    {num_staff shifts_per_day : Nat} {today : Int} {day : Nat} {row : RosterRow} :
    row ∈ rowsForDay val staff_leaves num_staff shifts_per_day today day ↔
      ∃ s < shifts_per_day,
        assignedStaff val staff_leaves num_staff day s ≠ [] ∧
        row = ⟨day + 1, today + day, s + 1, _get_shift_time s,
               assignedStaff val staff_leaves num_staff day s,
               (assignedStaff val staff_leaves num_staff day s).length⟩ := by
  simp only [rowsForDay, List.mem_filterMap, List.mem_range]
  constructor
  · rintro ⟨s, hs, h⟩
    unfold slotRow at h
    by_cases he : (assignedStaff val staff_leaves num_staff day s).isEmpty
    · simp [he] at h
    · simp only [he, Bool.false_eq_true, if_false, Option.some.injEq] at h
      exact ⟨s, hs, by simpa [List.isEmpty_iff] using he, h.symm⟩
  · rintro ⟨s, hs, hne, rfl⟩
    exact ⟨s, hs, by simp [slotRow, List.isEmpty_iff, hne]⟩

/-- Characterization of the full extracted roster by day. -/
theorem mem_buildRoster {val : Nat → Nat → Nat → Bool} {staff_leaves : List (Nat × Nat)}
    {num_staff num_days shifts_per_day : Nat} {today : Int} {row : RosterRow} :
    row ∈ buildRoster val staff_leaves num_staff num_days shifts_per_day today ↔
      ∃ d < num_days, row ∈ rowsForDay val staff_leaves num_staff shifts_per_day today d := by
  simp only [buildRoster, List.mem_flatten, List.mem_map, List.mem_range]
  constructor
  · rintro ⟨l, ⟨d, hd, rfl⟩, hrow⟩
    exact ⟨d, hd, hrow⟩
  · rintro ⟨d, hd, hrow⟩
    exact ⟨_, ⟨d, hd, rfl⟩, hrow⟩

/-- A successful `optimize_roster` call went through leave processing,
a present staff table, all validations, and extracted its roster from
the oracle's assignment. -/
theorem success_inversion {inp : OptInput} {oracle : SolverOracle} {roster : List RosterRow}
    (h : (optimize_roster inp oracle).roster = some roster) :
    ∃ staffRows staff_leaves,
      inp.staff = some staffRows ∧
      computeLeaves inp.staff inp.today inp.num_days (inp.leave_requests.getD []) =
        .ok staff_leaves ∧
      roster = buildRoster oracle.val staff_leaves staffRows.length
        inp.num_days.toNat inp.shifts_per_day.toNat inp.today := by
  unfold optimize_roster optimizeBody at h
  split at h
  · simp at h
  · simp at h
  · rename_i rost heq
    simp only [CallOutcome.roster, Option.some.injEq] at h
    subst h
    split at heq
    · exact Except.noConfusion heq
    · rename_i staff_leaves hcl
      split at heq
      · simp at heq
      · rename_i staffRows hstaff
        split at heq
        · simp at heq
        split at heq
        · simp at heq
        split at heq
        · simp at heq
        split at heq
        · simp at heq
        split at heq
        · simp at heq
        split at heq
        · simp at heq
        split at heq
        · split at heq
          · simp at heq
          · simp only [Except.ok.injEq, BodyResult.success.injEq] at heq
            exact ⟨staffRows, staff_leaves, hstaff, hcl, heq.symm⟩
        · simp at heq

/-- A planning-day offset `D` covered by a leave interval (and inside
the horizon) is among the day offsets the leave loop marks. -/
theorem mem_leaveDayNums {start_date end_date today num_days : Int} {D : Nat}
    (h1 : start_date ≤ today + D) (h2 : today + D ≤ end_date)
    (h3 : (D : Int) < num_days) :
    D ∈ leaveDayNums start_date end_date today num_days := by
  unfold leaveDayNums
  rw [List.mem_filterMap]
  refine ⟨(today + D - start_date).toNat, ?_, ?_⟩
  · rw [List.mem_range]; omega
  · have hk : start_date + ((today + (D : Int) - start_date).toNat : Int) - today = (D : Int) := by
      omega
    simp only [hk]
    rw [if_pos ⟨by omega, h3⟩]
    simp

/-- Every (staff index, day offset) pair an approved request marks ends
up in the computed `staff_leaves` relation when leave processing
completes without an exception. -/
theorem computeLeaves_mem {staff : Option (List StaffRow)} {today num_days : Int} :
    ∀ {reqs : List LeaveRequest} {lv : List (Nat × Nat)},
      computeLeaves staff today num_days reqs = .ok lv →
      ∀ {req : LeaveRequest}, req ∈ reqs → req.status = "Approved" →
      ∀ {i : Nat}, staffLookup staff req.staff_member = .ok i →
      ∀ {d : Nat}, d ∈ leaveDayNums req.start_date req.end_date today num_days →
      (i, d) ∈ lv := by
  intro reqs
  induction reqs with
  | nil => intro lv h req hmem; simp at hmem
  | cons r rest ih =>
    intro lv h req hmem happ i hlook d hd
    rcases List.mem_cons.mp hmem with rfl | hmem'
    · rw [computeLeaves, if_pos (by simp [happ]), hlook] at h
      cases hrest : computeLeaves staff today num_days rest with
      | error e => rw [hrest] at h; exact Except.noConfusion h
      | ok lv' =>
        rw [hrest] at h
        simp only [Except.ok.injEq] at h
        subst h
        exact List.mem_append_left _ (List.mem_map.mpr ⟨d, hd, rfl⟩)
    · rw [computeLeaves] at h
      by_cases hst : r.status == "Approved"
      · rw [if_pos hst] at h
        cases hlk : staffLookup staff r.staff_member with
        | error e => rw [hlk] at h; exact Except.noConfusion h
        | ok j =>
          rw [hlk] at h
          cases hrest : computeLeaves staff today num_days rest with
          | error e => rw [hrest] at h; exact Except.noConfusion h
          | ok lv' =>
            rw [hrest] at h
            simp only [Except.ok.injEq] at h
            subst h
            exact List.mem_append_right _ (ih hrest hmem' happ hlook hd)
      · rw [if_neg hst] at h
        exact ih h hmem' happ hlook hd

/-- When some approved request names a staff member matching no row of
the staff table, leave processing necessarily throws (the request by
request loop hits either that lookup's `IndexError` or an earlier
request's exception). -/
theorem computeLeaves_error_of_unmatched (staffRows : List StaffRow) (today num_days : Int) :
    ∀ (reqs : List LeaveRequest) (req : LeaveRequest), req ∈ reqs →
      req.status = "Approved" →
      (∀ r ∈ staffRows, r.name ≠ req.staff_member) →
      ∃ e, computeLeaves (some staffRows) today num_days reqs = .error e := by
  intro reqs
  induction reqs with
  | nil => intro req h; simp at h
  | cons hd rest ih =>
    intro req hmem happ hnone
    rcases List.mem_cons.mp hmem with rfl | hmem'
    · have hfind : staffRows.findIdx? (fun r => r.name == req.staff_member) = none := by
        rw [List.findIdx?_eq_none_iff]
        intro r hr
        simp [hnone r hr]
      refine ⟨"index 0 is out of bounds for axis 0 with size 0", ?_⟩
      rw [computeLeaves, if_pos (by simp [happ])]
      simp [staffLookup, hfind]
    · rw [computeLeaves]
      by_cases hst : hd.status == "Approved"
      · rw [if_pos hst]
        cases hlk : staffLookup (some staffRows) hd.staff_member with
        | error e => exact ⟨e, rfl⟩
        | ok j =>
          obtain ⟨e, he⟩ := ih req hmem' happ hnone
          rw [he]
          exact ⟨e, rfl⟩
      · rw [if_neg hst]
        exact ih req hmem' happ hnone

/-- A string starting with a nonempty piece is nonempty. -/
theorem append_ne_empty_left (s t : String) (h : 0 < s.length) : s ++ t ≠ "" := by
  intro he
  have h2 := congrArg String.length he
  rw [String.length_append] at h2
  have h3 : ("" : String).length = 0 := rfl
  omega

/-- A string ending with a nonempty piece is nonempty. -/
theorem append_ne_empty_right (s t : String) (h : 0 < t.length) : s ++ t ≠ "" := by
  intro he
  have h2 := congrArg String.length he
  rw [String.length_append] at h2
  have h3 : ("" : String).length = 0 := rfl
  omega

/-- A sum over `List.range n` of a function that vanishes away from `k`
and is at most 1 at `k` is at most 1. -/
theorem sum_map_range_le_one (f : Nat → Nat) (n k : Nat)
    (h0 : ∀ m, m ≠ k → f m = 0) (h1 : k < n → f k ≤ 1) :
    ((List.range n).map f).sum ≤ 1 := by
  induction n with
  | zero => simp
  | succ n ih =>
    rw [List.range_succ, List.map_append, List.sum_append]
    simp only [List.map_cons, List.map_nil, List.sum_cons, List.sum_nil]
    by_cases hn : n = k
    · subst hn
      have hz : ((List.range n).map f).sum = 0 := by
        apply List.sum_eq_zero
        intro x hx
        rw [List.mem_map] at hx
        obtain ⟨m, hm, rfl⟩ := hx
        rw [List.mem_range] at hm
        exact h0 m (by omega)
      have := h1 (by omega)
      omega
    · have := h0 n hn
      have hrec := ih (fun hk => h1 (by omega))
      omega

/-- Under the model's one-shift-per-day constraint (line 164), the
extracted roster lists a staff index in at most one row carrying any
given `Day` value. -/
theorem countP_buildRoster_le_one
    (val : Nat → Nat → Nat → Bool) (lv : List (Nat × Nat))
    (num_staff num_days shifts_per_day : Nat) (today : Int) (st d : Nat)
    (hcon : ∀ s < num_staff, ∀ dd < num_days,
      ((List.range shifts_per_day).filter (fun sh => val s dd sh)).length ≤ 1) :
    (buildRoster val lv num_staff num_days shifts_per_day today).countP
      (fun r => r.Day == d && r.Staff.contains st) ≤ 1 := by
  unfold buildRoster
  rw [List.countP_flatten, List.map_map]
  apply sum_map_range_le_one _ _ (d - 1)
  · intro m hm
    simp only [Function.comp]
    rw [List.countP_eq_zero]
    intro row hrow hp
    rw [mem_rowsForDay] at hrow
    obtain ⟨s, hs, hne, rfl⟩ := hrow
    simp only [Bool.and_eq_true, beq_iff_eq] at hp
    omega
  · intro hmlt
    simp only [Function.comp]
    unfold rowsForDay
    rw [List.countP_filterMap]
    have key : ∀ sh : Nat,
        (Option.map (fun r : RosterRow => r.Day == d && r.Staff.contains st)
          (slotRow val lv num_staff today (d - 1) sh)).getD false = true →
        st ∈ assignedStaff val lv num_staff (d - 1) sh := by
      intro sh hq
      unfold slotRow at hq
      by_cases he : (assignedStaff val lv num_staff (d - 1) sh).isEmpty
      · simp [he] at hq
      · simp only [he, Bool.false_eq_true, if_false] at hq
        simp only [Option.map_some', Option.getD_some, Bool.and_eq_true] at hq
        exact List.elem_iff.mp hq.2
    by_cases hst : st < num_staff
    · refine le_trans (List.countP_mono_left
        (fun sh hsh hq => (mem_assignedStaff.mp (key sh hq)).2.2)) ?_
      rw [List.countP_eq_length_filter]
      exact hcon st hst (d - 1) hmlt
    · have h0 : (List.range shifts_per_day).countP
          (fun sh => (Option.map (fun r : RosterRow => r.Day == d && r.Staff.contains st)
            (slotRow val lv num_staff today (d - 1) sh)).getD false) = 0 :=
        List.countP_eq_zero.mpr (fun sh hsh hq => hst (mem_assignedStaff.mp (key sh hq)).1)
      exact le_of_eq_of_le h0 (Nat.zero_le 1)

/-- Every explicit failure message the body can produce is nonempty. -/
theorem body_failure_ne_empty {inp : OptInput} {oracle : SolverOracle} {err : String}
    (h : optimizeBody inp oracle = .ok (.failure err)) : err ≠ "" := by
  unfold optimizeBody at h
  split at h
  · exact Except.noConfusion h
  · split at h
    · simp only [Except.ok.injEq, BodyResult.failure.injEq] at h; subst h; decide
    · split at h
      · simp only [Except.ok.injEq, BodyResult.failure.injEq] at h; subst h; decide
      split at h
      · simp only [Except.ok.injEq, BodyResult.failure.injEq] at h; subst h; decide
      split at h
      · simp only [Except.ok.injEq, BodyResult.failure.injEq] at h; subst h; decide
      split at h
      · simp only [Except.ok.injEq, BodyResult.failure.injEq] at h; subst h; decide
      split at h
      · simp only [Except.ok.injEq, BodyResult.failure.injEq] at h; subst h; decide
      split at h
      · simp only [Except.ok.injEq, BodyResult.failure.injEq] at h
        subst h
        unfold capacityError
        exact append_ne_empty_right _ _ (by decide)
      split at h
      · split at h
        · simp only [Except.ok.injEq, BodyResult.failure.injEq] at h; subst h; decide
        · simp at h
      · simp only [Except.ok.injEq, BodyResult.failure.injEq] at h
        subst h
        unfold infeasibleError
        exact append_ne_empty_right _ _ (by decide)

/-! ## Claim theorems -/

/-- C7: `calculate_roster_metrics` applied to a null or an empty roster
table returns exactly 0 for all five fields — `total_shifts`,
`avg_staff_per_shift`, `coverage`, `staff_utilization` and
`preference_satisfaction` — not an error and not NaN. -/
theorem metrics_empty_all_zero :
    calculate_roster_metrics none = ⟨0, 0, 0, 0, 0⟩ ∧
    calculate_roster_metrics (some []) = ⟨0, 0, 0, 0, 0⟩ :=
  ⟨rfl, rfl⟩

/-- C9: on every non-empty roster table, `calculate_roster_metrics`
returns `staff_utilization = sum(Staff_Count) / (number of rows) × 100`
— an assignments-per-row density, not a fraction of theoretical
staffing capacity (the formula contains no staff count or shift-slot
capacity term). -/
theorem staff_utilization_formula (rows : List DfRow) (h : rows ≠ []) :
    (calculate_roster_metrics (some rows)).staff_utilization =
      ((rows.map (fun r => r.Staff_Count)).sum : ℚ) / (rows.length : ℚ) * 100 := by
  simp [calculate_roster_metrics, _calculate_staff_utilization, List.isEmpty_iff, h]

/-- Witness for C9 at a concrete two-row table: `3 / 2 × 100`. -/
theorem staff_utilization_formula_witness :
    (calculate_roster_metrics (some rowsC9w)).staff_utilization =
      ((rowsC9w.map (fun r => r.Staff_Count)).sum : ℚ) / (rowsC9w.length : ℚ) * 100 :=
  staff_utilization_formula rowsC9w (by decide)

/-- C8 counterexample: with `shifts_per_day = 2` (which is not 3) and a
solver assignment satisfying the model's one-shift-per-day constraint,
the produced row's label is the fixed slot-0 label "07:00-15:00", not
"Unknown" — `_get_shift_time` never receives `shifts_per_day`, so the
claim's "for every other value of shifts_per_day, every slot's label is
Unknown" is false on the code. -/
theorem shift_time_label_cex :
    inpC8cex.shifts_per_day = 2 ∧ (2 : Int) ≠ 3 ∧
    (∀ st < 1, ∀ dd < 1,
      ((List.range 2).filter (fun sh => oC8cex.val st dd sh)).length ≤ 1) ∧
    (optimize_roster inpC8cex oC8cex).roster =
      some [⟨1, 0, 1, "07:00-15:00", [0], 1⟩] ∧
    "07:00-15:00" ≠ "Unknown" :=
  ⟨rfl, by decide, by decide, by decide, by decide⟩

/-- C8 (amended): in every successful call — whatever `shifts_per_day`
is — each produced row's `Shift_Time` label is determined by the slot
index alone: slots 0/1/2 carry the three fixed labels and every slot
≥ 3 is labelled "Unknown" (`shiftTimeSpec`). -/
theorem shift_time_label (inp : OptInput) (oracle : SolverOracle) (roster : List RosterRow)
    (hok : (optimize_roster inp oracle).roster = some roster) :
    ∀ row ∈ roster, row.Shift_Time = shiftTimeSpec (row.Shift - 1) := by
  obtain ⟨sr, lv, hs', hlv, hrost⟩ := success_inversion hok
  subst hrost
  intro row hrow
  rw [mem_buildRoster] at hrow
  obtain ⟨dd, hdd, hrowd⟩ := hrow
  rw [mem_rowsForDay] at hrowd
  obtain ⟨s, hs2, hne, rfl⟩ := hrowd
  show _get_shift_time s = shiftTimeSpec (s + 1 - 1)
  rw [Nat.add_sub_cancel]
  match s with
  | 0 => rfl
  | 1 => rfl
  | 2 => rfl
  | (n + 3) => rfl

/-- Witness for C8 (amended), at a concrete successful call with
`shifts_per_day = 2` and `FEASIBLE` status: the slot-0 row's label. -/
theorem shift_time_label_witness :
    (⟨1, 0, 1, "07:00-15:00", [0], 1⟩ : RosterRow).Shift_Time =
      shiftTimeSpec ((⟨1, 0, 1, "07:00-15:00", [0], 1⟩ : RosterRow).Shift - 1) :=
  shift_time_label inpC8w oC8w
    [⟨1, 0, 1, "07:00-15:00", [0], 1⟩, ⟨1, 0, 2, "15:00-23:00", [1], 1⟩]
    (by decide) _ (by decide)

/-- C6 counterexample: with an empty staff table and an approved leave
entry, the call fails — but with the generic optimization error raised
by the leave-processing name lookup (which runs before the empty-staff
validation), not with "No staff data provided". -/
theorem empty_staff_error_cex :
    (optimize_roster inpC6cex oC6cex).success = false ∧
    (optimize_roster inpC6cex oC6cex).last_error =
      some "Optimization error: index 0 is out of bounds for axis 0 with size 0" ∧
    (optimize_roster inpC6cex oC6cex).last_error ≠ some "No staff data provided" := by
  decide

/-- C6 (amended): whenever leave processing completes without an
exception (in particular whenever `leave_requests` is absent, empty or
contains no approved entries), a `None` or empty staff table makes the
call fail with exactly "No staff data provided", identically for every
solver oracle — i.e. before any model construction. -/
theorem empty_staff_error (inp : OptInput) (oracle : SolverOracle) (lv : List (Nat × Nat))
    (hempty : inp.staff = none ∨ inp.staff = some [])
    (hlv : computeLeaves inp.staff inp.today inp.num_days (inp.leave_requests.getD []) =
      .ok lv) :
    optimize_roster inp oracle = ⟨none, false, some "No staff data provided"⟩ := by
  rcases hempty with h | h
  · rw [h] at hlv
    simp [optimize_roster, optimizeBody, hlv, h]
  · rw [h] at hlv
    simp [optimize_roster, optimizeBody, hlv, h]

/-- Witness for C6 (amended): empty staff table, no leave requests. -/
theorem empty_staff_error_witness :
    optimize_roster inpC6w oC6w = ⟨none, false, some "No staff data provided"⟩ :=
  empty_staff_error inpC6w oC6w [] (Or.inr rfl) rfl

/-- C2 counterexample: the input (1 staff, `num_days = 7`,
`shifts_per_day = 1`, `min_staff_per_shift = 1`,
`max_shifts_per_week = 0`) has `total_slots_needed = 7 >
0 = max_available_slots`, yet the call fails with the bare positivity
message — which reports neither number and no suggestions — because the
positivity checks run before the capacity check; so "for every input
with total_slots_needed > max_available_slots … an error reporting both
numbers and at least three remediation suggestions" is false on the
code. -/
theorem capacity_check_cex :
    totalSlotsNeeded inpC2cex.num_days.toNat inpC2cex.shifts_per_day.toNat
        inpC2cex.min_staff_per_shift.toNat = 7 ∧
    maxAvailableSlots 1 inpC2cex.max_shifts_per_week.toNat inpC2cex.num_days.toNat = 0 ∧
    optimize_roster inpC2cex oC2cex =
      ⟨none, false, some "Maximum shifts per week must be positive"⟩ ∧
    "Maximum shifts per week must be positive" ≠ capacityError 1 7 1 1 0 7 0 := by
  decide

/-- C2 (amended): for every input whose leave processing completes,
whose staff table is present and nonempty and whose four scheduling
parameters are all positive, `total_slots_needed > max_available_slots`
makes the call fail identically for every solver oracle (hence before
the solver is consulted) with the capacity error text, which reports
both numbers and the three remediation suggestions. -/
theorem capacity_check (inp : OptInput) (oracle : SolverOracle)
    (staffRows : List StaffRow) (lv : List (Nat × Nat))
    (hs : inp.staff = some staffRows) (hne : staffRows ≠ [])
    (hlv : computeLeaves inp.staff inp.today inp.num_days (inp.leave_requests.getD []) =
      .ok lv)
    (h1 : 0 < inp.num_days) (h2 : 0 < inp.shifts_per_day)
    (h3 : 0 < inp.min_staff_per_shift) (h4 : 0 < inp.max_shifts_per_week)
    (hcap : maxAvailableSlots staffRows.length inp.max_shifts_per_week.toNat
        inp.num_days.toNat <
      totalSlotsNeeded inp.num_days.toNat inp.shifts_per_day.toNat
        inp.min_staff_per_shift.toNat) :
    optimize_roster inp oracle =
      ⟨none, false, some (capacityError staffRows.length inp.num_days.toNat
        inp.shifts_per_day.toNat inp.min_staff_per_shift.toNat
        inp.max_shifts_per_week.toNat
        (totalSlotsNeeded inp.num_days.toNat inp.shifts_per_day.toNat
          inp.min_staff_per_shift.toNat)
        (maxAvailableSlots staffRows.length inp.max_shifts_per_week.toNat
          inp.num_days.toNat))⟩ := by
  rw [hs] at hlv
  simp only [optimize_roster, optimizeBody, hlv, hs]
  rw [if_neg (by simpa [List.isEmpty_iff] using hne)]
  rw [if_neg (by omega), if_neg (by omega), if_neg (by omega), if_neg (by omega)]
  rw [if_pos hcap]

set_option maxRecDepth 4000 in
/-- Witness for C2 (amended): the spec's 63 > 10 instance fails with
the capacity error whose text reports 63, 10 and the three numbered
suggestions. -/
theorem capacity_check_witness :
    optimize_roster inpC2w oC2w = ⟨none, false,
      some ("Not enough staff capacity. Need 63 slots but only have 10 available.\nCurrent parameters:\n- Staff members: 2\n- Days: 7\n- Shifts per day: 3\n- Min staff per shift: 3\n- Max shifts per week: 5\nSuggestions:\n1. Increase staff members (need at least 13)\n2. Reduce min staff per shift (currently 3)\n3. Increase max shifts per week (currently 5)")⟩ := by
  have h := capacity_check inpC2w oC2w [⟨"Asha"⟩, ⟨"Ben"⟩] [] rfl (by decide) rfl
    (by decide) (by decide) (by decide) (by decide) (by decide)
  rw [h]
  decide

/-- C5: for every input and every solver response, `optimize_roster`
returns a structured result and never propagates an exception (the
embedded function is total; the only thrown exceptions are converted by
the top-level handler into the failure shape): either success with a
roster, or `(None, False)` with a nonempty error string that
`get_last_error` then returns verbatim, whatever the debug trail
holds. -/
theorem optimizer_never_raises (inp : OptInput) (oracle : SolverOracle) :
    (∃ r, optimize_roster inp oracle = ⟨some r, true, none⟩) ∨
    (∃ e, optimize_roster inp oracle = ⟨none, false, some e⟩ ∧ e ≠ "" ∧
      ∀ dbg, get_last_error (some e) dbg = e) := by
  have gle : ∀ e : String, e ≠ "" → ∀ dbg, get_last_error (some e) dbg = e := by
    intro e he dbg
    unfold get_last_error
    rw [Option.getD_some]
    rw [if_neg (fun hc => he hc.1), if_neg he]
  rcases hb : optimizeBody inp oracle with e | br
  · right
    have hne : "Optimization error: " ++ e ≠ "" :=
      append_ne_empty_left _ _ (by decide)
    refine ⟨"Optimization error: " ++ e, ?_, hne, gle _ hne⟩
    unfold optimize_roster
    rw [hb]
  · cases br with
    | success r =>
      left
      refine ⟨r, ?_⟩
      unfold optimize_roster
      rw [hb]
    | failure err =>
      right
      have hne := body_failure_ne_empty hb
      refine ⟨err, ?_, hne, gle _ hne⟩
      unfold optimize_roster
      rw [hb]

/-- C10: an approved leave request whose `staff_member` equals no name
in the staff table makes the whole call fail: the name lookup raises,
the top-level handler catches it, the call returns `(None, False)` and
the retrievable error is the generic "Optimization error: ..." text —
the unmatched entry is not ignored and no roster is produced. -/
theorem unmatched_leave_fails (inp : OptInput) (oracle : SolverOracle)
    (staffRows : List StaffRow) (reqs : List LeaveRequest) (req : LeaveRequest)
    (hs : inp.staff = some staffRows)
    (hl : inp.leave_requests = some reqs)
    (hmem : req ∈ reqs) (happ : req.status = "Approved")
    (hnone : ∀ r ∈ staffRows, r.name ≠ req.staff_member) :
    (optimize_roster inp oracle).success = false ∧
    (optimize_roster inp oracle).roster = none ∧
    ∃ msg, (optimize_roster inp oracle).last_error =
      some ("Optimization error: " ++ msg) := by
  obtain ⟨e, he⟩ :=
    computeLeaves_error_of_unmatched staffRows inp.today inp.num_days reqs req hmem happ hnone
  have hb : optimizeBody inp oracle = .error e := by
    unfold optimizeBody
    rw [hl]
    simp only [Option.getD_some]
    rw [hs, he]
  unfold optimize_roster
  rw [hb]
  exact ⟨rfl, rfl, e, rfl⟩

/-- Witness for C10: staff table `[Alice]`, approved leave for Bob. -/
theorem unmatched_leave_fails_witness :
    (optimize_roster inpC10w oC10w).success = false ∧
    (optimize_roster inpC10w oC10w).roster = none ∧
    ∃ msg, (optimize_roster inpC10w oC10w).last_error =
      some ("Optimization error: " ++ msg) :=
  unmatched_leave_fails inpC10w oC10w [⟨"Alice"⟩] [⟨"Bob", "Approved", 0, 1⟩]
    ⟨"Bob", "Approved", 0, 1⟩ rfl rfl (by decide) rfl (by decide)

/-- C1: in every successful call, a staff member — the staff-table row
the engine's name lookup resolves for an approved leave request — whose
leave covers planning day `D` (`start_date ≤ today + D ≤ end_date`,
`D` inside the horizon) has zero shift assignments on day `D`: no
roster row of day `D` lists that staff index, across all shifts. -/
theorem leave_excluded_from_roster (inp : OptInput) (oracle : SolverOracle)
    (roster : List RosterRow) (staffRows : List StaffRow)
    (reqs : List LeaveRequest) (req : LeaveRequest) (i D : Nat)
    (hs : inp.staff = some staffRows)
    (hl : inp.leave_requests = some reqs)
    (hmem : req ∈ reqs) (happ : req.status = "Approved")
    (hidx : staffLookup inp.staff req.staff_member = .ok i)
    (h1 : req.start_date ≤ inp.today + D) (h2 : inp.today + D ≤ req.end_date)
    (hD : (D : Int) < inp.num_days)
    (hok : (optimize_roster inp oracle).roster = some roster) :
    ∀ row ∈ roster, row.Day = D + 1 → i ∉ row.Staff := by
  obtain ⟨sr, lv, hs', hlv, hrost⟩ := success_inversion hok
  rw [hl] at hlv
  simp only [Option.getD_some] at hlv
  have hmemlv : (i, D) ∈ lv :=
    computeLeaves_mem hlv hmem happ hidx (mem_leaveDayNums h1 h2 hD)
  subst hrost
  intro row hrow hday
  rw [mem_buildRoster] at hrow
  obtain ⟨dd, hdd, hrowd⟩ := hrow
  rw [mem_rowsForDay] at hrowd
  obtain ⟨s, hs2, hne, rfl⟩ := hrowd
  have hddD : dd = D := by simpa using hday
  subst hddD
  intro hmemSt
  rw [mem_assignedStaff] at hmemSt
  exact hmemSt.2.1 hmemlv

/-- Witness for C1: Alice (index 0) is on approved leave covering day
offset 0 of a two-day horizon; the day-1 row lists only Bob. -/
theorem leave_excluded_witness :
    (0 : Nat) ∉ (⟨1, 0, 1, "07:00-15:00", [1], 1⟩ : RosterRow).Staff :=
  leave_excluded_from_roster inpC1w oC1w
    [⟨1, 0, 1, "07:00-15:00", [1], 1⟩, ⟨2, 1, 1, "07:00-15:00", [0, 1], 2⟩]
    [⟨"Alice"⟩, ⟨"Bob"⟩] [⟨"Alice", "Approved", 0, 0⟩] ⟨"Alice", "Approved", 0, 0⟩ 0 0
    rfl rfl (by decide) rfl rfl (by decide) (by decide) (by decide) (by decide)
    ⟨1, 0, 1, "07:00-15:00", [1], 1⟩ (by decide) rfl

/-- C3: in every successful call whose solver assignment satisfies the
model's hard one-shift-per-day constraint (line 164 — CP-SAT only
returns assignments satisfying every constraint added to the model),
each staff index appears in at most one of any single day's rows:
counted over all shift rows carrying one `Day` value, its appearances
never exceed 1. -/
theorem no_double_booking (inp : OptInput) (oracle : SolverOracle) (roster : List RosterRow)
    (hok : (optimize_roster inp oracle).roster = some roster)
    (hcon : ∀ st < (inp.staff.getD []).length, ∀ dd < inp.num_days.toNat,
      ((List.range inp.shifts_per_day.toNat).filter (fun sh => oracle.val st dd sh)).length
        ≤ 1) :
    ∀ st d, roster.countP (fun r => r.Day == d && r.Staff.contains st) ≤ 1 := by
  obtain ⟨sr, lv, hs', hlv, hrost⟩ := success_inversion hok
  subst hrost
  rw [hs'] at hcon
  simp only [Option.getD_some] at hcon
  intro st d
  exact countP_buildRoster_le_one oracle.val lv sr.length inp.num_days.toNat
    inp.shifts_per_day.toNat inp.today st d hcon

/-- Witness for C3 at a concrete successful call (two staff, one day,
two shifts, staff `st` on shift `st`): staff 0 is counted in at most
one row of day 1. -/
theorem no_double_booking_witness :
    List.countP (fun r => r.Day == 1 && r.Staff.contains 0)
      [(⟨1, 0, 1, "07:00-15:00", [0], 1⟩ : RosterRow),
       ⟨1, 0, 2, "15:00-23:00", [1], 1⟩] ≤ 1 :=
  no_double_booking inpC3w oC3w
    [⟨1, 0, 1, "07:00-15:00", [0], 1⟩, ⟨1, 0, 2, "15:00-23:00", [1], 1⟩]
    (by decide) (by decide) 0 1

/-- C4: in every successful call, every returned row's `Staff_Count`
equals the number of comma-separated names in its `Staff` field (the
length of the name list that the field comma-joins) and is at least 1;
and a `(day, shift)` slot whose staff list is empty produces no row at
all — no row carries that day and shift. -/
theorem roster_row_counts (inp : OptInput) (oracle : SolverOracle)
    (roster : List RosterRow) (staffRows : List StaffRow) (lv : List (Nat × Nat))
    (hs : inp.staff = some staffRows)
    (hlv : computeLeaves inp.staff inp.today inp.num_days (inp.leave_requests.getD []) =
      .ok lv)
    (hok : (optimize_roster inp oracle).roster = some roster) :
    (∀ row ∈ roster,
      row.Staff_Count = (rosterStaffNames staffRows row).length ∧ 1 ≤ row.Staff_Count) ∧
    (∀ d < inp.num_days.toNat, ∀ s < inp.shifts_per_day.toNat,
      assignedStaff oracle.val lv staffRows.length d s = [] →
      ∀ row ∈ roster, ¬(row.Day = d + 1 ∧ row.Shift = s + 1)) := by
  obtain ⟨sr, lv', hs', hlv', hrost⟩ := success_inversion hok
  have hsr : staffRows = sr := by
    have := hs.symm.trans hs'
    exact Option.some.inj this
  subst hsr
  have hlveq : lv = lv' := by
    have := hlv.symm.trans hlv'
    exact Except.ok.inj this
  subst hlveq
  subst hrost
  constructor
  · intro row hrow
    rw [mem_buildRoster] at hrow
    obtain ⟨dd, hdd, hrowd⟩ := hrow
    rw [mem_rowsForDay] at hrowd
    obtain ⟨s, hs2, hne, rfl⟩ := hrowd
    constructor
    · simp [rosterStaffNames]
    · simpa using List.length_pos.mpr hne
  · intro d hd s hsx hempty row hrow hcontra
    rw [mem_buildRoster] at hrow
    obtain ⟨dd, hdd, hrowd⟩ := hrow
    rw [mem_rowsForDay] at hrowd
    obtain ⟨s', hs2, hne, rfl⟩ := hrowd
    obtain ⟨hday, hshift⟩ := hcontra
    have hd' : dd = d := by simpa using hday
    have hs'' : s' = s := by simpa using hshift
    subst hd'
    subst hs''
    exact hne hempty

/-- Witness for C4 at a concrete successful call (one staff, one day,
two shifts, only slot 0 worked): the produced row's count matches its
name list and the empty slot `(0, 1)` yields no row. -/
theorem roster_row_counts_witness :
    ((⟨1, 0, 1, "07:00-15:00", [0], 1⟩ : RosterRow).Staff_Count =
      (rosterStaffNames [⟨"Asha"⟩] ⟨1, 0, 1, "07:00-15:00", [0], 1⟩).length ∧
      1 ≤ (⟨1, 0, 1, "07:00-15:00", [0], 1⟩ : RosterRow).Staff_Count) ∧
    ¬((⟨1, 0, 1, "07:00-15:00", [0], 1⟩ : RosterRow).Day = 0 + 1 ∧
      (⟨1, 0, 1, "07:00-15:00", [0], 1⟩ : RosterRow).Shift = 1 + 1) := by
  have h := roster_row_counts inpC4w oC4w [⟨1, 0, 1, "07:00-15:00", [0], 1⟩]
    [⟨"Asha"⟩] [] rfl rfl (by decide)
  exact ⟨h.1 _ (by decide),
    h.2 0 (by decide) 1 (by decide) (by decide) _ (by decide)⟩
